import Mathlib

/-!
Shallow embedding of `src/prefect/utilities/debug.py`: the cross-process
serializability check `is_serializable`, the `raise_on_exception` scoped
context flag, and the `make_return_failed_handler` state observer.

External collaborators (the standard library's temp-file and subprocess
facilities, the fresh interpreter running the generated verification script,
`prefect.context`, and the framework's state hierarchy) are not part of the
repository excerpt; where a claim needs them they are modelled explicitly,
from the specification, as noted on each such definition.
-/

namespace PrefectDebug

/-- A Python exception value, distinguished the way the code distinguishes
them: `subprocess.CalledProcessError` carries the child's return code and its
captured combined output; every other `Exception` is represented by its class
name and message. -/
inductive PyExc where
  | calledProcessError (returncode : Int) (output : String)
  | other (name : String) (msg : String)
deriving DecidableEq, Repr

/-- The diagnostic text carried by an exception: for `CalledProcessError` it
is the `output` attribute (the child's captured combined stdout/stderr), for
any other exception its message. -/
def PyExc.diagnostic : PyExc → String
  | .calledProcessError _ out => out
  | .other _ msg => msg

/-- Outcome of attempting to spawn the verification child process: either the
process ran to completion with an exit code and captured combined output, or
spawning itself raised an exception. -/
inductive SpawnOutcome where
  | completed (exitCode : Int) (output : String)
  | spawnError (e : PyExc)
deriving DecidableEq, Repr

/-- Semantics of `subprocess.check_output(..., stderr=subprocess.STDOUT)`:
return the captured combined output when the process exits zero; raise
`CalledProcessError` carrying the exit code and that same output when it
exits non-zero; a spawn failure raises the underlying error. -/
def check_output : SpawnOutcome → Except PyExc String
  | .completed c out => if c = 0 then .ok out else .error (.calledProcessError c out)
  | .spawnError e => .error e

/-- Whether the spawn outcome is a completed process with exit code zero. -/
def spawnOk : SpawnOutcome → Bool
  | .completed c _ => c == 0
  | .spawnError _ => false

/-- Modelled from the spec: the platform's unique-temp-file allocator backing
`tempfile.mkstemp`, which is not part of the repository excerpt.  Allocation
is atomic on a shared monotone counter, so each allocation returns a path
never returned before and no two allocations — within one call or across
interleaved concurrent calls — can yield the same path. -/
structure TempAlloc where
  counter : Nat
deriving DecidableEq, Repr

/-- One atomic `tempfile.mkstemp` allocation: returns a fresh path and the
advanced allocator state. -/
def mkstemp (a : TempAlloc) : Nat × TempAlloc :=
  (a.counter, ⟨a.counter + 1⟩)

/-- The environment of one `is_serializable` call: whether each fallible
external step raises, and the spawn outcome.  `mkstempFail1`/`mkstempFail2`
are the two `tempfile.mkstemp` calls, `dumpResult` is `cloudpickle.dump` of
the candidate into the payload file, `writeResult` is writing the generated
verification script into the script file, and `spawn` is the
`subprocess.check_output` invocation (`none` means the step succeeds). -/
structure Env where
  mkstempFail1 : Option PyExc
  mkstempFail2 : Option PyExc
  dumpResult : Option PyExc
  writeResult : Option PyExc
  spawn : SpawnOutcome
deriving DecidableEq, Repr

/-- Control-flow outcome of the outer `try` body of `is_serializable`: fell
through (so `return True` runs after the `finally`), executed `return False`
in the inner `except CalledProcessError` handler, or let an exception escape
the body to the outer handler. -/
inductive BodyOut where
  | retTrue
  | retFalse
  | exc (e : PyExc)
deriving DecidableEq, Repr

/-- The outer `try` body of `is_serializable`: dump the payload, write the
script, run `check_output`.  A non-zero exit raises `CalledProcessError`,
which the inner handler re-raises when `raise_on_error` and otherwise turns
into `return False`; any other exception escapes to the outer handler. -/
def tryBody (raise_on_error : Bool) (env : Env) : BodyOut :=
  match env.dumpResult with
  | some e => .exc e
  | none =>
    match env.writeResult with
    | some e => .exc e
    | none =>
      match check_output env.spawn with
      | .ok _ => .retTrue
      | .error (.calledProcessError c out) =>
          if raise_on_error then .exc (.calledProcessError c out) else .retFalse
      | .error e => .exc e

/-- Result of one `is_serializable` call: the returned boolean or propagated
exception, the final temporary-file namespace, the candidate value as the
caller still holds it, and the two allocated artifact paths (present when the
corresponding `mkstemp` call succeeded). -/
structure ISResult (α : Type) where
  ret : Except PyExc Bool
  fs : List Nat
  candidate : α
  binaryPath : Option Nat
  scriptPath : Option Nat
deriving Repr

/-- `is_serializable(obj, raise_on_error)`: allocate the payload file and the
script file with `tempfile.mkstemp` (both allocations happen before the
`try`); inside the `try`, dump the candidate, write the script and run the
child process; an exception escaping the body is re-raised when
`raise_on_error` and otherwise becomes `return False`; the `finally` unlinks
the payload file and then the script file.  `fs` is the list of temp paths
existing on disk; the two `os.close` calls touch only file descriptors and
are not modelled.  The candidate `obj` is only read (by `cloudpickle.dump`),
never written. -/
def is_serializable {α : Type} (obj : α) (raise_on_error : Bool) (env : Env)
    (alloc : TempAlloc) (fs : List Nat) : ISResult α :=
  match env.mkstempFail1 with
  | some e => ⟨.error e, fs, obj, none, none⟩
  | none =>
    let r1 := mkstemp alloc
    let binary_file := r1.1
    match env.mkstempFail2 with
    | some e => ⟨.error e, binary_file :: fs, obj, some binary_file, none⟩
    | none =>
      let r2 := mkstemp r1.2
      let script_file := r2.1
      let fs2 := script_file :: binary_file :: fs
      let ret : Except PyExc Bool :=
        match tryBody raise_on_error env with
        | .retTrue => .ok true
        | .retFalse => .ok false
        | .exc e => if raise_on_error then .error e else .ok false
      ⟨ret, (fs2.erase binary_file).erase script_file, obj,
        some binary_file, some script_file⟩

/-- Modelled from the spec: the generated verification script running in a
fresh interpreter.  On successful decode of the payload the process exits
zero; on a decode error the interpreter writes a traceback naming the error
to the combined output stream and exits non-zero. -/
def childProcess (decodeError : Option String) : SpawnOutcome :=
  match decodeError with
  | none => .completed 0 ""
  | some errName =>
      .completed 1 ("Traceback (most recent call last):\n" ++ errName)

/-- Modelled from the spec: the framework's ambient context
(`prefect.context`, not part of the repository excerpt); only the
`raise_on_exception` key matters here (`none` means the key is absent). -/
structure Context where
  raise_on_exception : Option Bool
deriving DecidableEq, Repr

/-- The `raise_on_exception` context manager: entering
`prefect.context(raise_on_exception=True)` saves the prior value of the key
and sets it to `True` for the dynamic extent of the body; the body runs
against the updated context and may return normally or raise; on the way out
the prior value is restored unconditionally and the body's outcome is
propagated.  The scoped save/restore is modelled from the spec, since
`prefect.context` is not part of the excerpt. -/
def raise_on_exception {α : Type} (ctx : Context)
    (body : Context → Except PyExc α) : Except PyExc α × Context :=
  let saved := ctx.raise_on_exception
  let inner : Context := { ctx with raise_on_exception := some true }
  let result := body inner
  (result, { inner with raise_on_exception := saved })

/-- Modelled from the spec: the framework's task-state hierarchy
(`prefect.engine.state` is not part of the repository excerpt); the
observer's tagged set is {Failed, Retrying}. -/
inductive TaskState where
  | pending
  | running
  | success
  | failed
  | retrying
  | skipped
deriving DecidableEq, Repr

/-- The `isinstance(new_state, (state.Failed, state.Retrying))` test. -/
def TaskState.isFailedOrRetrying : TaskState → Bool
  | .failed => true
  | .retrying => true
  | _ => false

/-- The task runner passed to a state handler; only its `task` attribute (the
work unit) is consulted by the handler. -/
structure TaskRunner where
  task : Nat
deriving DecidableEq, Repr

/-- The handler produced by `make_return_failed_handler(failed_tasks_set)`:
on each state transition it adds `task_runner.task` to the shared set when
`new_state` is an instance of `Failed` or `Retrying`, and returns
`new_state`.  The shared mutable set is passed in and returned explicitly. -/
def make_return_failed_handler (failed_tasks_set : Finset Nat)
    (task_runner : TaskRunner) (_old_state new_state : TaskState) :
    TaskState × Finset Nat :=
  if new_state.isFailedOrRetrying then
    (new_state, insert task_runner.task failed_tasks_set)
  else
    (new_state, failed_tasks_set)

/-- Claim C5: `is_serializable` never mutates the candidate value: after the
call returns, with either outcome and on every path, the candidate the caller
holds is unchanged. -/
theorem c5_candidate_not_mutated {α : Type} (obj : α) (ro : Bool) (env : Env)
    (alloc : TempAlloc) (fs : List Nat) :
    (is_serializable obj ro env alloc fs).candidate = obj := by
  unfold is_serializable
  cases env.mkstempFail1 <;> cases env.mkstempFail2 <;> rfl

/-- Claim C8: the handler inserts the work unit into the shared collection
exactly when the new state is in the tagged set {Failed, Retrying}; for any
other new state the collection is left unchanged. -/
theorem c8_insert_iff_tagged (s : Finset Nat) (tr : TaskRunner)
    (o n : TaskState) :
    (make_return_failed_handler s tr o n).2
        = (if n.isFailedOrRetrying then insert tr.task s else s) ∧
    (tr.task ∈ (make_return_failed_handler s tr o n).2
        ↔ (n.isFailedOrRetrying = true ∨ tr.task ∈ s)) ∧
    (∀ m : TaskState,
        m.isFailedOrRetrying = true ↔ (m = .failed ∨ m = .retrying)) := by
  refine ⟨?_, ?_, ?_⟩
  · unfold make_return_failed_handler
    split <;> rfl
  · unfold make_return_failed_handler
    rcases h : n.isFailedOrRetrying <;> simp [h]
  · intro m
    cases m <;> simp [TaskState.isFailedOrRetrying]

/-- Claim C9: the `raise_on_exception` context manager sets the
exception-propagation flag exactly for the duration of the body: the body
runs against a context in which the flag reads `True`, its outcome (normal or
exceptional) is propagated unchanged, and on exit the context is restored to
its prior value, so no effect leaks outside the scope. -/
theorem c9_flag_scoped_and_restored {α : Type} (ctx : Context)
    (body : Context → Except PyExc α) :
    (raise_on_exception ctx body).2 = ctx ∧
    (raise_on_exception ctx body).1
        = body { ctx with raise_on_exception := some true } ∧
    ({ ctx with raise_on_exception := some true } : Context).raise_on_exception
        = some true := by
  refine ⟨rfl, rfl, rfl⟩

/-- Claim C1: with `raise_on_error` false, when the verification process is
spawned and completes, `is_serializable` returns `True` exactly when the exit
code is zero; on a non-zero exit it returns `False`, and the exception raised
at the spawn site (`CalledProcessError`) carries the child's captured
combined output as its diagnostic text. -/
theorem c1_exit_code_classification {α : Type} (obj : α) (env : Env)
    (alloc : TempAlloc) (fs : List Nat) (c : Int) (out : String)
    (h1 : env.mkstempFail1 = none) (h2 : env.mkstempFail2 = none)
    (h3 : env.dumpResult = none) (h4 : env.writeResult = none)
    (h5 : env.spawn = .completed c out) :
    ((is_serializable obj false env alloc fs).ret = .ok true ↔ c = 0) ∧
    (c ≠ 0 →
      (is_serializable obj false env alloc fs).ret = .ok false ∧
      check_output env.spawn = .error (.calledProcessError c out) ∧
      (PyExc.calledProcessError c out).diagnostic = out) := by
  by_cases hc : c = 0 <;>
    simp [is_serializable, tryBody, check_output, PyExc.diagnostic,
      h1, h2, h3, h4, h5, hc]

/-- Claim C2: whenever both temporary files have been allocated, both are
deleted before the call returns, on every exit path — normal return, return
`False` from a caught failure, and propagation of an error when
`raise_on_error` is true: the final temp namespace equals the initial one. -/
theorem c2_cleanup_on_all_paths {α : Type} (obj : α) (ro : Bool) (env : Env)
    (alloc : TempAlloc) (fs : List Nat)
    (h1 : env.mkstempFail1 = none) (h2 : env.mkstempFail2 = none) :
    (is_serializable obj ro env alloc fs).fs = fs := by
  simp [is_serializable, h1, h2, mkstemp, List.erase_cons]

/-- Claim C3: with `raise_on_error` false, once both temporary files are
allocated, `is_serializable` never throws: it always returns a boolean, and
every failure during encoding, script writing, process spawning, or decoding
in the child process (non-zero exit) is collapsed to the result `False`. -/
theorem c3_default_mode_never_throws {α : Type} (obj : α) (env : Env)
    (alloc : TempAlloc) (fs : List Nat)
    (h1 : env.mkstempFail1 = none) (h2 : env.mkstempFail2 = none) :
    (∃ b : Bool, (is_serializable obj false env alloc fs).ret = .ok b) ∧
    ((env.dumpResult.isSome ∨ env.writeResult.isSome ∨ spawnOk env.spawn = false) →
      (is_serializable obj false env alloc fs).ret = .ok false) := by
  obtain ⟨m1, m2, d, w, sp⟩ := env
  cases h1; cases h2
  constructor
  · cases d with
    | some e => exact ⟨false, by simp [is_serializable, tryBody]⟩
    | none =>
      cases w with
      | some e => exact ⟨false, by simp [is_serializable, tryBody]⟩
      | none =>
        cases sp with
        | completed c out =>
          by_cases hc : c = 0
          · exact ⟨true, by simp [is_serializable, tryBody, check_output, hc]⟩
          · exact ⟨false, by simp [is_serializable, tryBody, check_output, hc]⟩
        | spawnError e =>
          exact ⟨false, by cases e <;> simp [is_serializable, tryBody, check_output]⟩
  · intro h
    cases d with
    | some e => simp [is_serializable, tryBody]
    | none =>
      cases w with
      | some e => simp [is_serializable, tryBody]
      | none =>
        cases sp with
        | completed c out =>
          simp [spawnOk] at h
          simp [is_serializable, tryBody, check_output, h]
        | spawnError e => cases e <;> simp [is_serializable, tryBody, check_output]

/-- Claim C4: with `raise_on_error` true on a value whose payload fails to
decode in the child process, `is_serializable` raises an error whose
diagnostic text is the child's captured output verbatim (not summarized), is
non-empty, and contains the underlying failure signature (the decode error
name written in the child's traceback). -/
theorem c4_diagnostics_propagated {α : Type} (obj : α) (env : Env)
    (alloc : TempAlloc) (fs : List Nat) (errName : String)
    (h1 : env.mkstempFail1 = none) (h2 : env.mkstempFail2 = none)
    (h3 : env.dumpResult = none) (h4 : env.writeResult = none)
    (h5 : env.spawn = childProcess (some errName)) :
    (is_serializable obj true env alloc fs).ret
        = .error (.calledProcessError 1
            ("Traceback (most recent call last):\n" ++ errName)) ∧
    env.spawn = .completed 1 ("Traceback (most recent call last):\n" ++ errName) ∧
    (PyExc.calledProcessError 1
        ("Traceback (most recent call last):\n" ++ errName)).diagnostic
        = "Traceback (most recent call last):\n" ++ errName ∧
    "Traceback (most recent call last):\n" ++ errName ≠ "" ∧
    List.IsSuffix errName.data
      ("Traceback (most recent call last):\n" ++ errName).data := by
  refine ⟨?_, by rw [h5]; rfl, rfl, ?_, ?_⟩
  · simp [is_serializable, tryBody, check_output, childProcess, h1, h2, h3, h4, h5,
      PyExc.diagnostic]
  · intro hcontra
    have hlen := congrArg String.length hcontra
    simp [String.length_append] at hlen
    exact absurd hlen.1 (by decide)
  · rw [String.data_append]
    exact List.suffix_append _ _

/-- Claim C6: temporary artifact paths come from the platform's atomic
unique-temp-file allocator: within one call the two paths are distinct; any
four allocations drawn successively from the shared allocator state — which
is how the allocations of two interleaved concurrent calls are serialized —
are pairwise distinct, so concurrent calls never collide; and the value a
call returns is a function of its own input alone, independent of the shared
allocator state and of the temp namespace contents. -/
theorem c6_unique_temp_allocation {α : Type} (obj : α) (ro : Bool) (env : Env)
    (alloc alloc' : TempAlloc) (fs fs' : List Nat)
    (h1 : env.mkstempFail1 = none) (h2 : env.mkstempFail2 = none) :
    (∃ b s : Nat, (is_serializable obj ro env alloc fs).binaryPath = some b ∧
      (is_serializable obj ro env alloc fs).scriptPath = some s ∧ b ≠ s) ∧
    ((mkstemp alloc).1 ≠ (mkstemp (mkstemp alloc).2).1 ∧
      (mkstemp alloc).1 ≠ (mkstemp (mkstemp (mkstemp alloc).2).2).1 ∧
      (mkstemp alloc).1 ≠ (mkstemp (mkstemp (mkstemp (mkstemp alloc).2).2).2).1 ∧
      (mkstemp (mkstemp alloc).2).1 ≠ (mkstemp (mkstemp (mkstemp alloc).2).2).1 ∧
      (mkstemp (mkstemp alloc).2).1
        ≠ (mkstemp (mkstemp (mkstemp (mkstemp alloc).2).2).2).1 ∧
      (mkstemp (mkstemp (mkstemp alloc).2).2).1
        ≠ (mkstemp (mkstemp (mkstemp (mkstemp alloc).2).2).2).1) ∧
    (is_serializable obj ro env alloc' fs').ret
        = (is_serializable obj ro env alloc fs).ret := by
  refine ⟨⟨alloc.counter, alloc.counter + 1, ?_, ?_, by omega⟩, ?_, ?_⟩
  · simp [is_serializable, h1, h2, mkstemp]
  · simp [is_serializable, h1, h2, mkstemp]
  · simp [mkstemp]
    omega
  · simp [is_serializable, h1, h2]

/-- Claim C7: the handler produced by `make_return_failed_handler` always
returns `new_state` unchanged (it is side-effect-free with respect to control
flow), and invoking it repeatedly for the same work unit across retries is
safe: after a transition has inserted the work unit, any further invocation
for that work unit leaves the shared set exactly as after the single
insertion. -/
theorem c7_handler_identity_and_retry_safe (s : Finset Nat) (tr : TaskRunner)
    (o1 n1 : TaskState) (h1 : n1.isFailedOrRetrying = true) :
    (∀ (s0 : Finset Nat) (o n : TaskState),
      (make_return_failed_handler s0 tr o n).1 = n) ∧
    (∀ o2 n2 : TaskState,
      (make_return_failed_handler
          (make_return_failed_handler s tr o1 n1).2 tr o2 n2).2
        = (make_return_failed_handler s tr o1 n1).2) := by
  constructor
  · intro s0 o n
    unfold make_return_failed_handler
    split <;> rfl
  · intro o2 n2
    rcases h2 : n2.isFailedOrRetrying <;>
      simp [make_return_failed_handler, h1, h2, Finset.insert_idem]

/-- Claim C10: the guaranteed cleanup begins only after both temporary files
are allocated — when the second `tempfile.mkstemp` call itself raises,
`is_serializable` propagates that exception (with either `raise_on_error`
value) and the already-created payload file is not deleted: it remains in the
temp namespace. -/
theorem c10_second_mkstemp_failure_leaks_payload {α : Type} (obj : α)
    (ro : Bool) (env : Env) (alloc : TempAlloc) (fs : List Nat) (e : PyExc)
    (h1 : env.mkstempFail1 = none) (h2 : env.mkstempFail2 = some e) :
    (is_serializable obj ro env alloc fs).ret = .error e ∧
    (is_serializable obj ro env alloc fs).fs = (mkstemp alloc).1 :: fs ∧
    (is_serializable obj ro env alloc fs).binaryPath = some (mkstemp alloc).1 ∧
    (mkstemp alloc).1 ∈ (is_serializable obj ro env alloc fs).fs := by
  refine ⟨?_, ?_, ?_, ?_⟩ <;> simp [is_serializable, h1, h2]

/-- Witness for C1: a concrete run in which the child process exits with
code 1 and `is_serializable` returns `False`. -/
theorem c1_witness :
    (is_serializable (0 : Nat) false
        ⟨none, none, none, none, .completed 1 "err"⟩ ⟨0⟩ []).ret
      = Except.ok false :=
  ((c1_exit_code_classification (0 : Nat)
      ⟨none, none, none, none, .completed 1 "err"⟩ ⟨0⟩ [] 1 "err"
      rfl rfl rfl rfl rfl).2 (by decide)).1

/-- Witness for C2: a concrete run in which encoding fails and the error is
propagated (`raise_on_error` true), yet the temp namespace is restored. -/
theorem c2_witness :
    (is_serializable (0 : Nat) true
        ⟨none, none, some (.other "TypeError" "boom"), none, .completed 0 ""⟩
        ⟨5⟩ [9]).fs = [9] :=
  c2_cleanup_on_all_paths (0 : Nat) true
    ⟨none, none, some (.other "TypeError" "boom"), none, .completed 0 ""⟩
    ⟨5⟩ [9] rfl rfl

/-- Witness for C3: a concrete run in which spawning the child process itself
raises, and the default mode still returns the boolean `False`. -/
theorem c3_witness :
    (is_serializable (0 : Nat) false
        ⟨none, none, none, none, .spawnError (.other "OSError" "cannot spawn")⟩
        ⟨0⟩ []).ret = Except.ok false :=
  (c3_default_mode_never_throws (0 : Nat)
      ⟨none, none, none, none, .spawnError (.other "OSError" "cannot spawn")⟩
      ⟨0⟩ [] rfl rfl).2 (Or.inr (Or.inr rfl))

/-- Witness for C4: a concrete failing decode whose raised error carries the
child's traceback verbatim, non-empty and ending in the decode error name. -/
theorem c4_witness :
    (is_serializable (0 : Nat) true
        ⟨none, none, none, none, childProcess (some "UnpicklingError")⟩
        ⟨0⟩ []).ret
      = Except.error (.calledProcessError 1
          ("Traceback (most recent call last):\n" ++ "UnpicklingError")) ∧
    (⟨none, none, none, none, childProcess (some "UnpicklingError")⟩ : Env).spawn
      = .completed 1 ("Traceback (most recent call last):\n" ++ "UnpicklingError") ∧
    (PyExc.calledProcessError 1
        ("Traceback (most recent call last):\n" ++ "UnpicklingError")).diagnostic
      = "Traceback (most recent call last):\n" ++ "UnpicklingError" ∧
    "Traceback (most recent call last):\n" ++ "UnpicklingError" ≠ "" ∧
    List.IsSuffix "UnpicklingError".data
      ("Traceback (most recent call last):\n" ++ "UnpicklingError").data :=
  c4_diagnostics_propagated (0 : Nat)
    ⟨none, none, none, none, childProcess (some "UnpicklingError")⟩
    ⟨0⟩ [] "UnpicklingError" rfl rfl rfl rfl rfl

/-- Witness for C6: two concrete calls with the same input but different
shared allocator states and temp namespaces return the same result. -/
theorem c6_witness :
    (is_serializable (0 : Nat) false
        ⟨none, none, none, none, .completed 0 ""⟩ ⟨100⟩ [7]).ret
      = (is_serializable (0 : Nat) false
          ⟨none, none, none, none, .completed 0 ""⟩ ⟨0⟩ []).ret :=
  (c6_unique_temp_allocation (0 : Nat) false
      ⟨none, none, none, none, .completed 0 ""⟩ ⟨0⟩ ⟨100⟩ [] [7] rfl rfl).2.2

/-- Witness for C7: a concrete Failed transition followed by a Retrying
transition for the same work unit: the handler returns the new state and the
second invocation leaves the shared set as after the single insertion. -/
theorem c7_witness :
    (make_return_failed_handler ∅ ⟨3⟩ TaskState.pending TaskState.failed).1
        = TaskState.failed ∧
    (make_return_failed_handler
        (make_return_failed_handler ∅ ⟨3⟩ TaskState.pending TaskState.failed).2
        ⟨3⟩ TaskState.failed TaskState.retrying).2
      = (make_return_failed_handler ∅ ⟨3⟩ TaskState.pending TaskState.failed).2 :=
  ⟨(c7_handler_identity_and_retry_safe ∅ ⟨3⟩ .pending .failed rfl).1
      ∅ .pending .failed,
    (c7_handler_identity_and_retry_safe ∅ ⟨3⟩ .pending .failed rfl).2
      .failed .retrying⟩

/-- Witness for C10: a concrete run in which the second `mkstemp` raises: the
exception propagates and the payload file (path 2) is left on disk. -/
theorem c10_witness :
    (is_serializable (0 : Nat) false
        ⟨none, some (.other "OSError" "no temp"), none, none, .completed 0 ""⟩
        ⟨2⟩ []).ret = Except.error (.other "OSError" "no temp") ∧
    (is_serializable (0 : Nat) false
        ⟨none, some (.other "OSError" "no temp"), none, none, .completed 0 ""⟩
        ⟨2⟩ []).fs = (mkstemp ⟨2⟩).1 :: [] :=
  ⟨(c10_second_mkstemp_failure_leaks_payload (0 : Nat) false
      ⟨none, some (.other "OSError" "no temp"), none, none, .completed 0 ""⟩
      ⟨2⟩ [] (.other "OSError" "no temp") rfl rfl).1,
    (c10_second_mkstemp_failure_leaks_payload (0 : Nat) false
      ⟨none, some (.other "OSError" "no temp"), none, none, .completed 0 ""⟩
      ⟨2⟩ [] (.other "OSError" "no temp") rfl rfl).2.1⟩

end PrefectDebug
